import Mathlib

/-!
Shallow embedding of the VAF CLI deployment orchestrator
(`src/commands/deploy.ts` and the packaging helpers in `src/utils.ts`),
together with theorems settling the specification claims about it.

JavaScript-specific conventions used throughout:
* an optional value (`undefined`-able) is an `Option`;
* JS string truthiness (`if (s)`) is `s` present and non-empty;
* JS numbers that the code only ever treats as integers are `Int`/`Nat`.
-/

/-- JS truthiness filter for an optional string: `undefined` and the empty
string are falsy, everything else is kept. `a || b` on optional strings is
`(strTruthy a).getD b`-shaped. -/
def strTruthy : Option String → Option String
  | some s => if s = "" then none else some s
  | none => none

/-- JS boolean test `!!s` for an optional string. -/
def jsTruthyStr (s : Option String) : Bool :=
  match s with
  | none => false
  | some v => !(v == "")

/-- The whitespace characters JS `trim()` removes (the ones that can
occur in an ignore file). -/
def isJsSpace (c : Char) : Bool := c = ' ' || c = '\t' || c = '\r' || c = '\n'

/-- JS `s.trim()`. -/
def jsTrim (s : String) : String :=
  String.mk (((s.data.dropWhile isJsSpace).reverse.dropWhile isJsSpace).reverse)

/-- JS `s.split('\n')` on the character list: `""` splits to `[""]`,
like in JS. -/
def splitNlChars : List Char → List (List Char)
  | [] => [[]]
  | c :: cs =>
    let rest := splitNlChars cs
    if c = '\n' then [] :: rest
    else
      match rest with
      | [] => [[c]]
      | r :: rs => (c :: r) :: rs

/-- JS `s.split('\n')`. -/
def splitLines (s : String) : List String :=
  (splitNlChars s.data).map String.mk

/-- JS `s.startsWith(pre)`. -/
def strHasPrefix (pre s : String) : Bool := List.isPrefixOf pre.data s.data

/-- JS `s.endsWith(suf)`. -/
def strHasSuffix (suf s : String) : Bool := List.isSuffixOf suf.data s.data

/-- JS `s.slice(0, -n)`: drop the last `n` characters. -/
def strDropRight (s : String) (n : Nat) : String :=
  String.mk (s.data.take (s.data.length - n))

/-- JS `s.slice(n)`: drop the first `n` characters. -/
def strDrop (s : String) (n : Nat) : String := String.mk (s.data.drop n)

/-- JS `s.includes(pat)`: some index of `s` starts the substring `pat`. -/
def strContains (s pat : String) : Bool :=
  (List.range (s.data.length + 1)).any
    (fun i => List.isPrefixOf pat.data (s.data.drop i))

/-! ## Ignore-file handling (`src/utils.ts`, `readVafIgnore`) -/

/-- The built-in default pattern list returned when no `.vafignore` exists
(`utils.ts` line 65). Note it contains the dependency-directory pattern
`node_modules/**` in addition to version-control, log, env and OS-metadata
patterns. -/
def defaultIgnorePatterns : List String :=
  ["node_modules/**", ".git/**", "*.log", ".env", ".DS_Store"]

/-- The parsing step of `readVafIgnore` on an existing file's content:
split on newlines, trim each line, drop falsy (empty) lines and lines
starting with `#`. -/
def parseVafIgnore (content : String) : List String :=
  ((splitLines content).map jsTrim).filter
    (fun line => (!(line == "")) && !(strHasPrefix "#" line))

/-- `readVafIgnore dirPath`: the argument models whether `.vafignore`
exists (`some content`) or not (`none`). -/
def readVafIgnore (vafignoreContent : Option String) : List String :=
  match vafignoreContent with
  | none => defaultIgnorePatterns
  | some content => parseVafIgnore content

/-! ## Packaging (`src/utils.ts`, `zipDirectory`) -/

/-- Modelled from the spec: the external packaging primitive
`pack(dir, excludes) -> archivePath` (archiver's `glob('**/*', ignore)`),
treated as an external collaborator by the spec (section 1). Only the
pattern shapes the program actually passes are modelled: `dir/**` excludes
every file under `dir/`, `*.ext` excludes by suffix, and any other pattern
excludes the literally equal path. -/
def globMatches (pattern f : String) : Bool :=
  if strHasSuffix "/**" pattern then strHasPrefix (strDropRight pattern 2) f
  else if strHasPrefix "*" pattern then strHasSuffix (strDrop pattern 1) f
  else pattern == f

/-- `zipDirectory dirFiles ignorePatterns`: the archive's contents, as the
list of relative paths included. With a non-empty pattern list the source
calls `archive.glob` with the patterns as `ignore`; with an empty list it
archives the whole directory. -/
def zipDirectory (dirFiles : List String) (ignorePatterns : List String) : List String :=
  if ignorePatterns.isEmpty then dirFiles
  else dirFiles.filter (fun f => !(ignorePatterns.any (fun p => globMatches p f)))

/-! ## Status polling (`deploy.ts`, `pollDeploymentStatus`) -/

/-- The release record returned by
`GET .../deployment/:deploymentId`, as the poller reads it: a status
string plus optional `url` and `logs`. -/
structure ReleaseRecord where
  status : String
  url : Option String
  logs : Option String
deriving DecidableEq, Repr

/-- Outcome of one fetch of the release record: the record, or a thrown
transport error. -/
inductive FetchResult where
  | ok (r : ReleaseRecord)
  | err (msg : String)
deriving DecidableEq, Repr

/-- How one run of `pollDeploymentStatus` ended. -/
inductive PollOutcome where
  /-- `status === 'success'`: success reported, with the URL when present. -/
  | succeeded (url : Option String)
  /-- `status === 'failed'`: failure reported, with the logs when present. -/
  | deployFailed (logs : Option String)
  /-- a fetch threw: the error is reported and polling stops. -/
  | fetchFailed (msg : String)
  /-- the attempt budget ran out: the taking-longer-than-expected warning. -/
  | timedOut
deriving DecidableEq, Repr

/-- Result of a poll run: its outcome, how many fetches were made, and the
total time slept between fetches (ms). -/
structure PollResult where
  outcome : PollOutcome
  fetches : Nat
  sleptMs : Nat
deriving DecidableEq, Repr

/-- `maxAttempts` constant of `pollDeploymentStatus` (line 284). -/
def maxAttempts : Nat := 60

/-- The fixed sleep between fetches, ms (`setTimeout(resolve, 5000)`). -/
def pollIntervalMs : Nat := 5000

/-- The `while (attempts < maxAttempts)` loop of `pollDeploymentStatus`,
with `remaining = maxAttempts - attempts` made structural. `fetch n` is
the backend's answer to the `(n+1)`-th fetch. -/
def pollLoop (fetch : Nat → FetchResult) :
    Nat → Nat → Nat → PollResult
  | 0, attempts, slept => ⟨.timedOut, attempts, slept⟩
  | remaining + 1, attempts, slept =>
    match fetch attempts with
    | .err m => ⟨.fetchFailed m, attempts + 1, slept⟩
    | .ok r =>
      if r.status = "success" then ⟨.succeeded r.url, attempts + 1, slept⟩
      else if r.status = "failed" then ⟨.deployFailed r.logs, attempts + 1, slept⟩
      else pollLoop fetch remaining (attempts + 1) (slept + pollIntervalMs)

/-- `pollDeploymentStatus`, abstracted over the backend's fetch answers. -/
def pollDeploymentStatus (fetch : Nat → FetchResult) : PollResult :=
  pollLoop fetch maxAttempts 0 0

/-- A scripted fetch sequence: answer fetch `n` with the `n`-th record of
the script; a fetch past the end of the script throws. -/
def scriptedFetch (script : List ReleaseRecord) (n : Nat) : FetchResult :=
  match script.get? n with
  | some r => .ok r
  | none => .err "script exhausted"

/-! ## Project-file configuration (`deploy.ts`, `VafConfig` / `loadVafConfig`) -/

/-- One environment's block of `vaf.yml` as the deploy code reads it.
The TypeScript `VafConfig` interface declares
`runtime/memory/timeout/database/cache/storage/build/deploy`; `handler`
is not in the interface, but `yaml.load` performs no validation, so a
YAML-declared `handler` is present on the runtime object — the deploy
code just never reads it. `build`/`deploy` command lists are omitted
here: no claim concerns them. -/
structure EnvConfig where
  runtime : Option String
  memory : Option Int
  timeout : Option Int
  database : Option String
  cache : Option String
  storage : Option String
  handler : Option String
deriving DecidableEq, Repr

/-- The parsed `vaf.yml` / `vapor.yml`: numeric project id, name, and the
environments object (an assoc list keeps `Object.keys` order). -/
structure VafConfig where
  id : Int
  name : String
  environments : List (String × EnvConfig)
deriving DecidableEq, Repr

/-- What reading-and-parsing one candidate config file yields. -/
inductive ParseOutcome where
  | ok (c : VafConfig)
  | failed (msg : String)
deriving DecidableEq, Repr

/-- The project directory as `loadVafConfig` probes it: for each of
`vaf.yml` and `vapor.yml`, `none` means the file does not exist, and
`some o` means it exists and parsing it yields `o`. -/
structure ProjectDir where
  vafYml : Option ParseOutcome
  vaporYml : Option ParseOutcome
deriving DecidableEq, Repr

/-- `loadVafConfig`: try `vaf.yml` then `vapor.yml`; the first existing
file is parsed, and a parse failure logs an error and returns `null`
(without trying the next candidate). -/
def loadVafConfig (d : ProjectDir) : Option VafConfig :=
  match d.vafYml with
  | some (.ok c) => some c
  | some (.failed _) => none
  | none =>
    match d.vaporYml with
    | some (.ok c) => some c
    | some (.failed _) => none
    | none => none

/-! ## Identifier and environment resolution (`deploy.ts` lines 89-125) -/

/-- `Object.keys(vafConfig.environments)`. -/
def availableEnvNames (c : VafConfig) : List String :=
  c.environments.map Prod.fst

/-- How the resolution prefix of `deploy` ends. The code's only error
mechanism here is logging to the console and `process.exit(1)`;
`errorValue` exists so the spec's structured-error claim is statable,
but the code never constructs it. -/
inductive ResolveOutcome where
  /-- resolution succeeded: final project id, env name, and the looked-up
  environment block (`none` when no project file was loaded). -/
  | proceed (projectId envName : String) (envConfig : Option EnvConfig)
  /-- the code logged `errMsg` (plus one console line per name in
  `listedEnvs`) and called `process.exit code`. -/
  | exitLogged (errMsg : String) (listedEnvs : List String) (code : Nat)
  /-- a structured error value carrying the declared environment names —
  never produced by this code. -/
  | errorValue (errMsg : String) (listedEnvs : List String)
deriving DecidableEq, Repr

/-- `true` exactly on the `errorValue` constructor. -/
def isErrorValue : ResolveOutcome → Bool
  | .errorValue _ _ => true
  | _ => false

/-- Lines 93-125 of `deploy.ts`: determine the final project id and
environment name from the positional arguments and the loaded config,
then look the environment up, exiting on the three error paths. -/
def resolveDeploy (cfg : Option VafConfig) (projectId envName : Option String) :
    ResolveOutcome :=
  let finalProjectId : Option String :=
    match cfg with
    | some c => if jsTruthyStr projectId then projectId else some (toString c.id)
    | none => projectId
  let finalEnvName := envName
  let cfgEnvs : List (String × EnvConfig) :=
    match cfg with
    | some c => c.environments
    | none => []
  if cfg.isSome && !(jsTruthyStr finalEnvName) && !(cfgEnvs.isEmpty) then
    .exitLogged "Environment name is required. Available environments:"
      (cfgEnvs.map Prod.fst) 1
  else if !(jsTruthyStr finalProjectId) || !(jsTruthyStr finalEnvName) then
    .exitLogged "Project ID and environment name are required" [] 1
  else
    let name := finalEnvName.getD ""
    let envCfg : Option EnvConfig :=
      match cfg with
      | some c => List.lookup name c.environments
      | none => none
    match cfg with
    | some c =>
      if envCfg.isNone then
        .exitLogged ("Environment \"" ++ name ++ "\" not found in vaf.yml")
          (availableEnvNames c) 1
      else
        .proceed (finalProjectId.getD "") name envCfg
    | none => .proceed (finalProjectId.getD "") name none

/-! ## Release payload assembly (`deploy.ts` lines 19-28, 155-226) -/

/-- The per-invocation CLI options (`DeployOptions` interface): memory,
timeout, database, cache, storage, runtime, handler. -/
structure DeployOptions where
  memory : Option Int
  timeout : Option Int
  database : Option String
  cache : Option String
  storage : Option String
  runtime : Option String
  handler : Option String
deriving DecidableEq, Repr

/-- The `deploymentParams` object POSTed to `.../deployment/deploy`;
`none` in an optional field means the key is absent from the payload. -/
structure DeploymentParams where
  deploymentKey : String
  runtime : String
  handler : String
  memory : Option Int
  timeout : Option Int
  database : Option String
  cache : Option String
  storage : Option String
deriving DecidableEq, Repr

/-- Line 158: `deployments/${timestamp}-package.zip`, built from the
client's own `Date.now()` value. -/
def mkDeploymentKey (timestamp : Nat) : String :=
  "deployments/" ++ toString timestamp ++ "-package.zip"

/-- The three-line pattern repeated for `database`, `cache` and `storage`
(lines 204-220): `if (options.x) params.x = options.x;
else if (envConfig?.x) params.x = envConfig.x;` — JS truthiness on both
tiers, field left absent otherwise. -/
def optStringParam (opt envVal : Option String) : Option String :=
  if jsTruthyStr opt then opt
  else if jsTruthyStr envVal then envVal
  else none

/-- The pattern for `memory` and `timeout` (lines 192-202):
`!== undefined` checks on both tiers, field left absent otherwise. -/
def optNumParam (opt envVal : Option Int) : Option Int :=
  if opt.isSome then opt else envVal

/-- Lines 185-220: assemble `deploymentParams` from the CLI options and
the YAML environment block. -/
def buildDeploymentParams (options : DeployOptions) (envConfig : Option EnvConfig)
    (deploymentKey : String) : DeploymentParams :=
  { deploymentKey := deploymentKey
    -- `options.runtime || envConfig?.runtime || 'nodejs18.x'`
    runtime :=
      (strTruthy options.runtime).getD
        ((strTruthy (envConfig.bind EnvConfig.runtime)).getD "nodejs18.x")
    -- `options.handler || 'index.handler'` — the environment block is
    -- never consulted for the handler
    handler := (strTruthy options.handler).getD "index.handler"
    memory := optNumParam options.memory (envConfig.bind EnvConfig.memory)
    timeout := optNumParam options.timeout (envConfig.bind EnvConfig.timeout)
    database := optStringParam options.database (envConfig.bind EnvConfig.database)
    cache := optStringParam options.cache (envConfig.bind EnvConfig.cache)
    storage := optStringParam options.storage (envConfig.bind EnvConfig.storage) }

/-! ## One deploy attempt (`deploy.ts` lines 152-239) -/

/-- The environment one attempt runs against: the working directory's
files, whether `.vafignore` exists (and its content), and the outcome of
each external step, in the order the attempt performs them. The
`uploadUrl` field is the body of the `GET .../deployment/upload-url`
response — the source types it `{ uploadUrl: string }`, so the response
carries a transfer URL and nothing else (in particular no storage key). -/
structure StepPlan where
  /-- relative paths of the files under `cwd` after the build step. -/
  dirFiles : List String
  /-- `.vafignore` content, `none` when the file does not exist. -/
  vafignore : Option String
  /-- whether `zipDirectory` resolves (archiving succeeded). -/
  zipOk : Bool
  /-- whether the write stream had already created the archive file when
  `zipDirectory` rejected (irrelevant when `zipOk`). -/
  zipCreatesFile : Bool
  /-- whether `fs.statSync(tempZip)` succeeds. -/
  statOk : Bool
  /-- whether `GET .../deployment/upload-url` succeeds. -/
  uploadUrlOk : Bool
  /-- the `uploadUrl` field of the upload-url response body. -/
  uploadUrl : String
  /-- whether the `axios.put` of the archive bytes succeeds. -/
  uploadOk : Bool
  /-- whether `POST .../deployment/deploy` succeeds. -/
  triggerOk : Bool
  /-- the `id` of the returned release record, absent when the backend
  returns no id (then polling is skipped). -/
  releaseId : Option String
  /-- the backend's answers to the poll fetches. -/
  pollFetch : Nat → FetchResult

/-- Observable result of one deploy attempt. -/
structure AttemptResult where
  /-- whether `.vaf-deploy-temp-<timestamp>.zip` still exists after the
  attempt (i.e. after the `finally` block ran). -/
  tempZipExists : Bool
  /-- contents of the produced package archive, `none` when archiving
  failed. -/
  packagedFiles : Option (List String)
  /-- the URL the archive bytes were PUT to, when the upload step ran. -/
  uploadedTo : Option String
  /-- the `deploymentParams` payload POSTed to the deploy endpoint,
  `none` when the attempt failed before assembling it. -/
  payload : Option DeploymentParams
  /-- the error that propagated out of the `try` (after `finally`). -/
  failure : Option String
  /-- the poll run's result, when a release id was returned. -/
  pollResult : Option PollResult
deriving Repr

/-- The `finally` block (lines 234-239): `if (fs.existsSync(tempZip))
fs.unlinkSync(tempZip)`, as a transformation of the file's existence. -/
def cleanupTempZip (exists0 : Bool) : Bool :=
  if exists0 then false else exists0

/-- Lines 152-239 of `deploy.ts`: read the ignore patterns, create the
timestamped temp archive, upload it, trigger the release, poll, and
delete the temp archive in `finally` on every path. The `deploymentKey`
is computed on line 158 from the client timestamp, before any request is
made. -/
def runDeployAttempt (options : DeployOptions) (envConfig : Option EnvConfig)
    (timestamp : Nat) (plan : StepPlan) : AttemptResult :=
  let ignorePatterns := readVafIgnore plan.vafignore
  let deploymentKey := mkDeploymentKey timestamp
  -- each observable is guarded by the success of every step the code
  -- performs before it; the attempt aborts at the first failing step
  { -- inside the `try`, the archive file exists from the moment
    -- `zipDirectory` opened its write stream; the `finally` then removes
    -- it whenever it exists
    tempZipExists := cleanupTempZip (plan.zipOk || plan.zipCreatesFile)
    packagedFiles :=
      if plan.zipOk then some (zipDirectory plan.dirFiles ignorePatterns) else none
    -- the PUT runs (even if it then fails) once zip, stat and the
    -- upload-url request succeed; its target is the response's URL
    uploadedTo :=
      if plan.zipOk && plan.statOk && plan.uploadUrlOk then some plan.uploadUrl
      else none
    -- `deploymentParams` is assembled and POSTed once every step before
    -- the trigger succeeds
    payload :=
      if plan.zipOk && plan.statOk && plan.uploadUrlOk && plan.uploadOk then
        some (buildDeploymentParams options envConfig deploymentKey)
      else none
    failure :=
      if !plan.zipOk then some "packaging failed"
      else if !plan.statOk then some "stat failed"
      else if !plan.uploadUrlOk then some "upload-url request failed"
      else if !plan.uploadOk then some "upload failed"
      else if !plan.triggerOk then some "deploy trigger failed"
      else none
    -- polling happens only when the trigger succeeded and returned an id
    pollResult :=
      if plan.zipOk && plan.statOk && plan.uploadUrlOk && plan.uploadOk
          && plan.triggerOk && plan.releaseId.isSome then
        some (pollDeploymentStatus plan.pollFetch)
      else none }

/-! ## Watch mode (`deploy.ts` lines 242-271) -/

/-- The handler's skip test (line 254): an event is acted on unless its
path contains `.vaf-deploy-temp-` or starts with `.`. -/
def watchQualifies (filePath : String) : Bool :=
  !(strContains filePath ".vaf-deploy-temp-") && !(strHasPrefix "." filePath)

/-- One file-change notification: arrival time (ms) and the path. -/
structure WatchEvent where
  time : Nat
  filePath : String
deriving DecidableEq, Repr

/-- The debounce delay (line 267): `setTimeout(..., 2000)`. -/
def debounceMs : Nat := 2000

/-- When `deploy()` invocations start, given the event timeline: each
qualifying event arms the timer for `time + debounceMs`, and a later
qualifying event arriving strictly before that moment clears it
(`clearTimeout` on line 259). The handler consults no in-flight state,
so every fired timer starts an invocation. -/
def deployStartTimes (events : List WatchEvent) : List Nat :=
  let qs := (events.filter (fun e => watchQualifies e.filePath)).map WatchEvent.time
  (qs.filter (fun t =>
      !(qs.any (fun u => decide (t < u) && decide (u < t + debounceMs))))).map
    (fun t => t + debounceMs)

/-- Whether two `deploy()` invocations overlap in time, when each
invocation runs for `durationMs`. -/
def overlappingRuns (events : List WatchEvent) (durationMs : Nat) : Bool :=
  let starts := deployStartTimes events
  starts.any (fun s1 => starts.any (fun s2 =>
    decide (s1 < s2) && decide (s2 < s1 + durationMs)))

/-! ## Helper lemmas -/

/-- The `finally` block always leaves the temp archive deleted. -/
theorem cleanupTempZip_eq_false (b : Bool) : cleanupTempZip b = false := by
  cases b <;> rfl

/-- What a present optional string field tells us: it is non-empty and is
verbatim one of the two sources (no trimming happens). -/
theorem optStringParam_some (o e : Option String) (d : String)
    (h : optStringParam o e = some d) :
    d ≠ "" ∧ (o = some d ∨ e = some d) := by
  unfold optStringParam at h
  by_cases ho : jsTruthyStr o = true
  · rw [if_pos ho] at h
    refine ⟨?_, Or.inl h⟩
    rw [h] at ho
    simpa [jsTruthyStr] using ho
  · rw [if_neg ho] at h
    by_cases he : jsTruthyStr e = true
    · rw [if_pos he] at h
      refine ⟨?_, Or.inr h⟩
      rw [h] at he
      simpa [jsTruthyStr] using he
    · rw [if_neg he] at h
      exact Option.noConfusion h

/-- Specialization of the glob model to the dependency-directory pattern. -/
theorem globMatches_node_modules (f : String) :
    globMatches "node_modules/**" f = strHasPrefix "node_modules/" f := by
  unfold globMatches
  rw [if_pos (by decide)]
  rw [show strDropRight "node_modules/**" 2 = "node_modules/" from by decide]

/-! ## Claim theorems -/

set_option maxRecDepth 4000 in
/-- C4: `pollDeploymentStatus` fetches the release record on a fixed
5-second interval for at most 60 attempts; the scripted sequence
`[pending, pending, success]` terminates on the third fetch reporting
success with the URL when present; `failed` on the second fetch
terminates immediately reporting the failure logs; 60 all-`pending`
fetches terminate with the timeout warning, not an error. -/
theorem c4_poller_terminates_as_scripted :
    maxAttempts = 60 ∧ pollIntervalMs = 5000 ∧
    (∀ url : Option String,
      pollDeploymentStatus (scriptedFetch
        [⟨"pending", none, none⟩, ⟨"pending", none, none⟩, ⟨"success", url, none⟩])
        = ⟨.succeeded url, 3, 2 * pollIntervalMs⟩) ∧
    (∀ logs : Option String,
      pollDeploymentStatus (scriptedFetch
        [⟨"pending", none, none⟩, ⟨"failed", none, logs⟩])
        = ⟨.deployFailed logs, 2, pollIntervalMs⟩) ∧
    pollDeploymentStatus (fun _ => .ok ⟨"pending", none, none⟩)
        = ⟨.timedOut, 60, 60 * pollIntervalMs⟩ :=
  ⟨rfl, rfl, fun _ => rfl, fun _ => rfl, rfl⟩

/-- C5 (code bug evidence): three qualifying events within 2 seconds
produce exactly one `deploy()` invocation, but the handler keeps no
in-flight flag, so an event arriving 2.5 s after the first — while the
first invocation (running 10 s) is still in flight — starts a second,
overlapping invocation. -/
theorem c5_watch_debounce_but_overlapping_runs :
    deployStartTimes [⟨0, "index.ts"⟩, ⟨500, "app.ts"⟩, ⟨1000, "lib.ts"⟩] = [3000] ∧
    deployStartTimes [⟨0, "index.ts"⟩, ⟨2500, "app.ts"⟩] = [2000, 4500] ∧
    overlappingRuns [⟨0, "index.ts"⟩, ⟨2500, "app.ts"⟩] 10000 = true := by
  decide

/-- C8 (counterexample): the built-in default ignore set is not exactly
the four described patterns — it also contains the dependency-directory
pattern `node_modules/**`. -/
theorem c8_counterexample_default_set :
    readVafIgnore none ≠ [".git/**", "*.log", ".env", ".DS_Store"] ∧
    "node_modules/**" ∈ readVafIgnore none ∧
    "node_modules/**" ∉ [".git/**", "*.log", ".env", ".DS_Store"] := by
  decide

/-- C8 (amended): the effective pattern list of an existing ignore file
contains exactly the trimmed lines that are non-blank and not
`#`-prefixed, and a missing ignore file yields the built-in default list,
which is the four described patterns plus `node_modules/**`. -/
theorem c8_amended_parsing_and_default (content p : String) :
    (p ∈ parseVafIgnore content ↔
      p ∈ (splitLines content).map jsTrim ∧
        p ≠ "" ∧ strHasPrefix "#" p = false) ∧
    readVafIgnore (some content) = parseVafIgnore content ∧
    readVafIgnore none
      = ["node_modules/**", ".git/**", "*.log", ".env", ".DS_Store"] := by
  refine ⟨?_, rfl, rfl⟩
  unfold parseVafIgnore
  rw [List.mem_filter]
  simp [and_assoc]

/-- C8 (witness): the parsing characterization and the default list,
evaluated on a concrete ignore file. -/
theorem c8_amended_witness :
    "dist" ∈ parseVafIgnore "dist\n# note\n   \nnode_modules/" ∧
    readVafIgnore none
      = ["node_modules/**", ".git/**", "*.log", ".env", ".DS_Store"] :=
  ⟨(c8_amended_parsing_and_default "dist\n# note\n   \nnode_modules/" "dist").1.mpr
      (by decide),
   (c8_amended_parsing_and_default "" "").2.2⟩

/-- C9: the temporary archive of a deploy attempt never survives the
attempt: whatever the options, configuration, timestamp and step
outcomes, the `finally` block leaves the file deleted. -/
theorem c9_temp_zip_never_persists (options : DeployOptions)
    (envConfig : Option EnvConfig) (timestamp : Nat) (plan : StepPlan) :
    (runDeployAttempt options envConfig timestamp plan).tempZipExists = false := by
  show cleanupTempZip _ = false
  exact cleanupTempZip_eq_false _

/-- C1 (counterexample): `handler` does not follow the three-tier
precedence — with no CLI override and an environment-declared handler
`app.main`, the payload carries the built-in default `index.handler`,
not the environment value. -/
theorem c1_counterexample_handler_ignores_env :
    (buildDeploymentParams ⟨none, none, none, none, none, none, none⟩
        (some ⟨none, none, none, none, none, none, some "app.main"⟩)
        "k").handler = "index.handler" ∧
    (⟨none, none, none, none, none, none, some "app.main"⟩ : EnvConfig).handler
      = some "app.main" ∧
    ("index.handler" : String) ≠ "app.main" := by
  decide

/-- C1 (amended): `runtime`, `memory`, `timeout`, `database`, `cache` and
`storage` each follow override > environment-declared > default
independently (for the string fields an empty value counts as absent,
per JS truthiness); `handler` follows only override > built-in default
`index.handler`, ignoring any environment-declared handler. -/
theorem c1_amended_field_precedence (opts : DeployOptions) (env : EnvConfig)
    (k : String) :
    (∀ r, opts.runtime = some r → r ≠ "" →
      (buildDeploymentParams opts (some env) k).runtime = r) ∧
    (strTruthy opts.runtime = none → ∀ r, env.runtime = some r → r ≠ "" →
      (buildDeploymentParams opts (some env) k).runtime = r) ∧
    (strTruthy opts.runtime = none → strTruthy env.runtime = none →
      (buildDeploymentParams opts (some env) k).runtime = "nodejs18.x") ∧
    (∀ hv, opts.handler = some hv → hv ≠ "" →
      (buildDeploymentParams opts (some env) k).handler = hv) ∧
    (strTruthy opts.handler = none →
      (buildDeploymentParams opts (some env) k).handler = "index.handler") ∧
    (∀ m, opts.memory = some m →
      (buildDeploymentParams opts (some env) k).memory = some m) ∧
    (opts.memory = none →
      (buildDeploymentParams opts (some env) k).memory = env.memory) ∧
    (∀ t, opts.timeout = some t →
      (buildDeploymentParams opts (some env) k).timeout = some t) ∧
    (opts.timeout = none →
      (buildDeploymentParams opts (some env) k).timeout = env.timeout) ∧
    (∀ d, opts.database = some d → d ≠ "" →
      (buildDeploymentParams opts (some env) k).database = some d) ∧
    (jsTruthyStr opts.database = false → jsTruthyStr env.database = true →
      (buildDeploymentParams opts (some env) k).database = env.database) ∧
    (jsTruthyStr opts.database = false → jsTruthyStr env.database = false →
      (buildDeploymentParams opts (some env) k).database = none) ∧
    (∀ c, opts.cache = some c → c ≠ "" →
      (buildDeploymentParams opts (some env) k).cache = some c) ∧
    (jsTruthyStr opts.cache = false → jsTruthyStr env.cache = true →
      (buildDeploymentParams opts (some env) k).cache = env.cache) ∧
    (jsTruthyStr opts.cache = false → jsTruthyStr env.cache = false →
      (buildDeploymentParams opts (some env) k).cache = none) ∧
    (∀ s, opts.storage = some s → s ≠ "" →
      (buildDeploymentParams opts (some env) k).storage = some s) ∧
    (jsTruthyStr opts.storage = false → jsTruthyStr env.storage = true →
      (buildDeploymentParams opts (some env) k).storage = env.storage) ∧
    (jsTruthyStr opts.storage = false → jsTruthyStr env.storage = false →
      (buildDeploymentParams opts (some env) k).storage = none) := by
  refine ⟨?_, ?_, ?_, ?_, ?_, ?_, ?_, ?_, ?_, ?_, ?_, ?_, ?_, ?_, ?_, ?_, ?_, ?_⟩
  · intro r hr hne
    simp [buildDeploymentParams, strTruthy, hr, hne]
  · intro h0 r hr hne
    show (strTruthy opts.runtime).getD _ = r
    rw [h0, Option.getD_none]
    simp [strTruthy, hr, hne]
  · intro h0 h1
    show (strTruthy opts.runtime).getD _ = _
    rw [h0, Option.getD_none]
    simp [h1]
  · intro hv hh hne
    simp [buildDeploymentParams, strTruthy, hh, hne]
  · intro h0
    show (strTruthy opts.handler).getD _ = _
    rw [h0, Option.getD_none]
  · intro m hm
    simp [buildDeploymentParams, optNumParam, hm]
  · intro h0
    simp [buildDeploymentParams, optNumParam, h0]
  · intro t ht
    simp [buildDeploymentParams, optNumParam, ht]
  · intro h0
    simp [buildDeploymentParams, optNumParam, h0]
  · intro d hd hne
    simp [buildDeploymentParams, optStringParam, jsTruthyStr, hd, hne]
  · intro h0 h1
    simp [buildDeploymentParams, optStringParam, h0, h1]
  · intro h0 h1
    simp [buildDeploymentParams, optStringParam, h0, h1]
  · intro c hc hne
    simp [buildDeploymentParams, optStringParam, jsTruthyStr, hc, hne]
  · intro h0 h1
    simp [buildDeploymentParams, optStringParam, h0, h1]
  · intro h0 h1
    simp [buildDeploymentParams, optStringParam, h0, h1]
  · intro s hs hne
    simp [buildDeploymentParams, optStringParam, jsTruthyStr, hs, hne]
  · intro h0 h1
    simp [buildDeploymentParams, optStringParam, h0, h1]
  · intro h0 h1
    simp [buildDeploymentParams, optStringParam, h0, h1]

/-- C1 (witness): the amended precedence evaluated at a concrete
invocation — a runtime override wins, the environment handler is ignored
in favor of the default, and an empty database override falls back to
the environment value. -/
theorem c1_amended_field_precedence_witness :
    (buildDeploymentParams ⟨none, none, some "", none, none, some "go1.x", none⟩
        (some ⟨some "nodejs20.x", none, none, some "maindb", none, none, some "app.main"⟩)
        "k").runtime = "go1.x" ∧
    (buildDeploymentParams ⟨none, none, some "", none, none, some "go1.x", none⟩
        (some ⟨some "nodejs20.x", none, none, some "maindb", none, none, some "app.main"⟩)
        "k").handler = "index.handler" ∧
    (buildDeploymentParams ⟨none, none, some "", none, none, some "go1.x", none⟩
        (some ⟨some "nodejs20.x", none, none, some "maindb", none, none, some "app.main"⟩)
        "k").database
      = (⟨some "nodejs20.x", none, none, some "maindb", none, none, some "app.main"⟩ : EnvConfig).database :=
  ⟨(c1_amended_field_precedence ⟨none, none, some "", none, none, some "go1.x", none⟩
      ⟨some "nodejs20.x", none, none, some "maindb", none, none, some "app.main"⟩ "k").1
      "go1.x" rfl (by decide),
   (c1_amended_field_precedence ⟨none, none, some "", none, none, some "go1.x", none⟩
      ⟨some "nodejs20.x", none, none, some "maindb", none, none, some "app.main"⟩ "k").2.2.2.2.1
      (by decide),
   (c1_amended_field_precedence ⟨none, none, some "", none, none, some "go1.x", none⟩
      ⟨some "nodejs20.x", none, none, some "maindb", none, none, some "app.main"⟩ "k").2.2.2.2.2.2.2.2.2.2.1
      (by decide) (by decide)⟩

/-- C2 (counterexample): the `deploymentKey` in the release payload is
invented by the client: two attempts with the same timestamp but
entirely different upload-url responses carry the same key, which is the
client's own `deployments/<timestamp>-package.zip` string and not
anything taken from the backend's response (whose only field is the
transfer URL). -/
theorem c2_counterexample_key_not_backend_issued :
    (runDeployAttempt ⟨none, none, none, none, none, none, none⟩ none 1700000000000
        ⟨["index.js"], none, true, true, true, true, "https://bucket/a?sig=1",
          true, true, none, fun _ => .err "unused"⟩).payload
      = (runDeployAttempt ⟨none, none, none, none, none, none, none⟩ none 1700000000000
        ⟨["index.js"], none, true, true, true, true, "https://bucket/b?sig=2",
          true, true, none, fun _ => .err "unused"⟩).payload ∧
    (runDeployAttempt ⟨none, none, none, none, none, none, none⟩ none 1700000000000
        ⟨["index.js"], none, true, true, true, true, "https://bucket/a?sig=1",
          true, true, none, fun _ => .err "unused"⟩).payload
      = some ⟨"deployments/1700000000000-package.zip", "nodejs18.x", "index.handler",
          none, none, none, none, none⟩ ∧
    ("deployments/1700000000000-package.zip" : String) ≠ "https://bucket/a?sig=1" := by
  refine ⟨rfl, rfl, by decide⟩

/-- C2 (amended): whenever a release payload is submitted, its
`deploymentKey` is the client-generated `deployments/<timestamp>-package.zip`
built from the client's own timestamp; the upload-url response carries no
storage key and contributes nothing to it. -/
theorem c2_amended_key_is_client_generated (options : DeployOptions)
    (envConfig : Option EnvConfig) (timestamp : Nat) (plan : StepPlan)
    (p : DeploymentParams)
    (hp : (runDeployAttempt options envConfig timestamp plan).payload = some p) :
    p.deploymentKey = "deployments/" ++ toString timestamp ++ "-package.zip" := by
  unfold runDeployAttempt at hp
  dsimp only at hp
  split at hp
  · injection hp with hp
    rw [← hp]
    rfl
  · exact Option.noConfusion hp

/-- C2 (amended, witness): the key of a concrete successful attempt. -/
theorem c2_amended_key_witness :
    ({ deploymentKey := "deployments/42-package.zip", runtime := "nodejs18.x",
       handler := "index.handler", memory := none, timeout := none,
       database := none, cache := none, storage := none } : DeploymentParams).deploymentKey
      = "deployments/" ++ toString 42 ++ "-package.zip" :=
  c2_amended_key_is_client_generated ⟨none, none, none, none, none, none, none⟩ none 42
    ⟨["a.js"], none, true, true, true, true, "https://u", true, true, none,
      fun _ => .err "e"⟩
    ⟨"deployments/42-package.zip", "nodejs18.x", "index.handler",
      none, none, none, none, none⟩
    (by decide)

/-- C3 (counterexample): a plain zip deployment with no ignore file does
NOT include the dependency directory: the default ignore list (passed to
packaging unchanged, with its dependency-directory pattern not removed)
excludes `node_modules/lodash/lodash.js` from the produced archive. -/
theorem c3_counterexample_zip_excludes_dependencies :
    (runDeployAttempt ⟨none, none, none, none, none, none, none⟩ none 1700
        ⟨["index.js", "node_modules/lodash/lodash.js"], none, true, true, true,
          true, "https://upload", true, true, none, fun _ => .err "unused"⟩).packagedFiles
      = some ["index.js"] ∧
    "node_modules/**" ∈ readVafIgnore none := by
  refine ⟨rfl, by decide⟩

/-- C3 (amended): packaging is always the single plain-zip mode and
receives the effective ignore list unchanged — no dependency-directory
pattern is removed — so with the ignore file absent the default list
applies, it contains `node_modules/**`, and the produced package
contains no file under the dependency directory. -/
theorem c3_amended_default_list_excludes_dependencies
    (options : DeployOptions) (envConfig : Option EnvConfig) (timestamp : Nat)
    (plan : StepPlan) (ps : List String) (f : String)
    (hign : plan.vafignore = none)
    (hps : (runDeployAttempt options envConfig timestamp plan).packagedFiles = some ps)
    (hf : f ∈ ps) :
    strHasPrefix "node_modules/" f = false ∧
    "node_modules/**" ∈ readVafIgnore plan.vafignore := by
  refine ⟨?_, by rw [hign]; decide⟩
  unfold runDeployAttempt at hps
  dsimp only at hps
  split at hps
  · injection hps with hps
    rw [hign] at hps
    rw [← hps] at hf
    unfold zipDirectory at hf
    rw [if_neg (by decide)] at hf
    rw [List.mem_filter] at hf
    have hpred := hf.2
    rw [Bool.not_eq_true'] at hpred
    have hnm := (List.any_eq_false.mp hpred) "node_modules/**" (by decide)
    rw [globMatches_node_modules] at hnm
    simpa using hnm
  · exact Option.noConfusion hps

/-- C3 (amended, witness): the concrete attempt of the counterexample —
the surviving file `index.js` is not under the dependency directory, and
the dependency pattern is in the effective list. -/
theorem c3_amended_witness :
    strHasPrefix "node_modules/" "index.js" = false ∧
    "node_modules/**" ∈ readVafIgnore none :=
  c3_amended_default_list_excludes_dependencies
    ⟨none, none, none, none, none, none, none⟩ none 1700
    ⟨["index.js", "node_modules/lodash/lodash.js"], none, true, true, true,
      true, "https://upload", true, true, none, fun _ => .err "unused"⟩
    ["index.js"] "index.js" rfl rfl (by decide)

/-- C6 (counterexample): a whitespace-only database reference is NOT
omitted — `--database " "` puts the literal `" "` into the payload, even
though it is empty after trimming. -/
theorem c6_counterexample_whitespace_not_omitted :
    (buildDeploymentParams ⟨none, none, some " ", none, none, none, none⟩
        none "k").database = some " " ∧
    jsTrim " " = "" := by
  refine ⟨rfl, by decide⟩

/-- C6 (amended): each of database, cache and storage is included only
when non-empty (JS truthiness): an empty string is never sent, but no
whitespace trimming happens — whatever value is included is verbatim one
of the two sources, so a whitespace-only value is sent as-is. -/
theorem c6_amended_nonempty_untrimmed (options : DeployOptions)
    (envConfig : Option EnvConfig) (k : String) :
    (∀ d, (buildDeploymentParams options envConfig k).database = some d →
      d ≠ "" ∧ (options.database = some d ∨ envConfig.bind EnvConfig.database = some d)) ∧
    (∀ c, (buildDeploymentParams options envConfig k).cache = some c →
      c ≠ "" ∧ (options.cache = some c ∨ envConfig.bind EnvConfig.cache = some c)) ∧
    (∀ s, (buildDeploymentParams options envConfig k).storage = some s →
      s ≠ "" ∧ (options.storage = some s ∨ envConfig.bind EnvConfig.storage = some s)) := by
  refine ⟨?_, ?_, ?_⟩
  · intro d hd
    exact optStringParam_some _ _ _ hd
  · intro c hc
    exact optStringParam_some _ _ _ hc
  · intro s hs
    exact optStringParam_some _ _ _ hs

/-- C6 (amended, witness): the whitespace-only value of the
counterexample is non-empty and taken verbatim from the CLI option. -/
theorem c6_amended_nonempty_untrimmed_witness :
    (" " : String) ≠ "" ∧
    ((⟨none, none, some " ", none, none, none, none⟩ : DeployOptions).database
        = some " " ∨
      (none : Option EnvConfig).bind EnvConfig.database = some " ") :=
  (c6_amended_nonempty_untrimmed ⟨none, none, some " ", none, none, none, none⟩
    none "k").1 " " rfl

/-- C7 (counterexample): with a loaded project file and an undeclared
environment name, the command logs the error and the declared names as
console lines and exits with code 1 — the outcome is a process exit, not
a structured error value carrying the list. -/
theorem c7_counterexample_exit_not_structured :
    resolveDeploy
        (some ⟨7, "demo",
          [("production", ⟨none, none, none, none, none, none, none⟩),
           ("staging", ⟨none, none, none, none, none, none, none⟩)]⟩)
        (some "7") (some "dev")
      = .exitLogged "Environment \"dev\" not found in vaf.yml"
          ["production", "staging"] 1 ∧
    isErrorValue (resolveDeploy
        (some ⟨7, "demo",
          [("production", ⟨none, none, none, none, none, none, none⟩),
           ("staging", ⟨none, none, none, none, none, none, none⟩)]⟩)
        (some "7") (some "dev")) = false := by
  refine ⟨rfl, rfl⟩

/-- C7 (amended): when the supplied environment name matches no declared
environment, resolution ends in a logged exit with code 1 whose logged
lines do carry the full list of declared environment names — but only as
log lines, never as a structured error value. -/
theorem c7_amended_env_list_logged_then_exit (c : VafConfig) (pid en : String)
    (hpid : pid ≠ "") (hen : en ≠ "")
    (hmiss : List.lookup en c.environments = none) :
    resolveDeploy (some c) (some pid) (some en)
      = .exitLogged ("Environment \"" ++ en ++ "\" not found in vaf.yml")
          (availableEnvNames c) 1 := by
  simp [resolveDeploy, jsTruthyStr, hpid, hen, hmiss]

/-- C7 (amended, witness): the concrete undeclared environment. -/
theorem c7_amended_env_list_witness :
    resolveDeploy
        (some ⟨7, "demo",
          [("production", ⟨none, none, none, none, none, none, none⟩)]⟩)
        (some "7") (some "dev")
      = .exitLogged ("Environment \"" ++ "dev" ++ "\" not found in vaf.yml")
          (availableEnvNames
            ⟨7, "demo", [("production", ⟨none, none, none, none, none, none, none⟩)]⟩) 1 :=
  c7_amended_env_list_logged_then_exit
    ⟨7, "demo", [("production", ⟨none, none, none, none, none, none, none⟩)]⟩
    "7" "dev" (by decide) (by decide) (by decide)

/-- C10: when `vaf.yml` exists but fails parsing, `loadVafConfig`
returns `null` and the deploy command proceeds exactly as with no
project file: with both positional arguments present resolution
proceeds, and with either absent it exits with the missing-identifier
error — it never aborts on the parse failure itself. -/
theorem c10_parse_failure_like_no_config (msg : String)
    (vapor : Option ParseOutcome) (pid en : Option String) :
    loadVafConfig ⟨some (.failed msg), vapor⟩ = none ∧
    resolveDeploy (loadVafConfig ⟨some (.failed msg), vapor⟩) pid en
      = resolveDeploy (loadVafConfig ⟨none, none⟩) pid en ∧
    ((jsTruthyStr pid = false ∨ jsTruthyStr en = false) →
      resolveDeploy (loadVafConfig ⟨some (.failed msg), vapor⟩) pid en
        = .exitLogged "Project ID and environment name are required" [] 1) ∧
    (jsTruthyStr pid = true → jsTruthyStr en = true →
      resolveDeploy (loadVafConfig ⟨some (.failed msg), vapor⟩) pid en
        = .proceed (pid.getD "") (en.getD "") none) := by
  refine ⟨rfl, rfl, ?_, ?_⟩
  · intro hmissing
    show resolveDeploy none pid en = _
    rcases hmissing with h | h <;>
      simp [resolveDeploy, h]
  · intro hpid hen
    show resolveDeploy none pid en = _
    simp [resolveDeploy, hpid, hen]

/-- C10 (witness): a concrete broken `vaf.yml` with a missing project-id
argument yields `null` config and the missing-identifier exit. -/
theorem c10_parse_failure_witness :
    loadVafConfig ⟨some (.failed "bad yaml"), none⟩ = none ∧
    resolveDeploy (loadVafConfig ⟨some (.failed "bad yaml"), none⟩)
        none (some "production")
      = .exitLogged "Project ID and environment name are required" [] 1 :=
  ⟨(c10_parse_failure_like_no_config "bad yaml" none none (some "production")).1,
   (c10_parse_failure_like_no_config "bad yaml" none none (some "production")).2.2.1
     (Or.inl rfl)⟩
